import Mathlib

/-!
Shallow embedding of `src/customer.py` (a customer-support return agent):
the mock order store, the three tools (`lookup_order`,
`product_return_policy`, `calculate_refund`), the tool executor
`execute_tools`, the state reducer `add_messages`, the routing function
`should_continue`, and the agent loop built by `create_agent_graph`.

Modelling conventions:
 - Python floats that only ever hold exact decimal literals and are
   combined by subtraction are modelled as rationals (`ℚ`).
 - Python dicts used as string-keyed tables are association lists with
   `dictGet` modelling `dict.get`.
 - A Python function that can raise returns `Except String α`; an
   `Except.error` models an uncaught exception, and the `try/except`
   in `execute_tools` is the `match` that turns a tool error into a
   `ToolMessage`.
 - `datetime.now()`-derived purchase-date strings are nondeterministic,
   so the store is parametrised by `daysAgoDate : Nat → String`, the
   model of `(datetime.now() - timedelta(days=n)).strftime("%Y-%m-%d")`.
-/

namespace CustomerSupport

/-- Python `str.upper()` (ASCII data only in this program), as a map over
the character list so that it evaluates inside the kernel. -/
def pyUpper (s : String) : String := String.mk (s.data.map Char.toUpper)

/-- Python `str.lower()` (ASCII data only in this program). -/
def pyLower (s : String) : String := String.mk (s.data.map Char.toLower)

/-- `dict.get k` on a string-keyed Python dict, as an association list. -/
def dictGet {α : Type} (d : List (String × α)) (k : String) : Option α :=
  (d.find? (fun p => p.1 == k)).map (fun p => p.2)

/-- One record of `MOCK_PURCHASES` (customer.py lines 13-49). -/
structure OrderRecord where
  product_name : String
  purchase_date : String
  order_id : String
  price : ℚ
  customer_name : String
deriving Repr, DecidableEq

/-- `MOCK_PURCHASES` (customer.py lines 13-49), parametrised by the
date-formatting of `datetime.now() - timedelta(days=n)`. -/
def MOCK_PURCHASES (daysAgoDate : Nat → String) : List (String × OrderRecord) :=
  [ ("ORD-001", { product_name := "Wireless Bluetooth Headphones",
                  purchase_date := daysAgoDate 10, order_id := "ORD-001",
                  price := 79.99, customer_name := "John Smith" }),
    ("ORD-002", { product_name := "Smart Fitness Watch",
                  purchase_date := daysAgoDate 35, order_id := "ORD-002",
                  price := 199.99, customer_name := "Sarah Johnson" }),
    ("ORD-003", { product_name := "USB-C Charging Cable",
                  purchase_date := daysAgoDate 5, order_id := "ORD-003",
                  price := 15.99, customer_name := "Mike Davis" }),
    ("ORD-004", { product_name := "Portable Power Bank",
                  purchase_date := daysAgoDate 45, order_id := "ORD-004",
                  price := 49.99, customer_name := "Emily Chen" }),
    ("ORD-005", { product_name := "Laptop Case",
                  purchase_date := daysAgoDate 20, order_id := "ORD-005",
                  price := 24.99, customer_name := "Alex Rodriguez" }) ]

/-- One entry of the `policies` table inside `product_return_policy`
(customer.py lines 64-80). -/
structure PolicyEntry where
  return_window_days : Nat
  condition : String
  refund_type : String
deriving Repr, DecidableEq

/-- The `policies["default"]` entry (customer.py lines 75-79). -/
def defaultPolicy : PolicyEntry :=
  { return_window_days := 30,
    condition := "unused and in original condition",
    refund_type := "full refund" }

/-- The `policies` dict literal inside `product_return_policy`
(customer.py lines 64-80). -/
def policies : List (String × PolicyEntry) :=
  [ ("electronics", { return_window_days := 15,
                      condition := "unopened or defective",
                      refund_type := "full refund or exchange" }),
    ("accessories", { return_window_days := 45,
                      condition := "unused with original packaging",
                      refund_type := "full refund or store credit" }),
    ("default", defaultPolicy) ]

/-- The dict returned by `product_return_policy` (customer.py lines 83-88). -/
structure PolicyResult where
  return_window_days : Nat
  condition_required : String
  refund_type : String
  restocking_fee : String
deriving Repr, DecidableEq

/-- `product_return_policy` (customer.py lines 54-88).
`policies.get(product_category.lower(), policies["default"])` followed by
repackaging with the fixed `restocking_fee` string. -/
def product_return_policy (product_category : String := "electronics") : PolicyResult :=
  let policy := (dictGet policies (pyLower product_category)).getD defaultPolicy
  { return_window_days := policy.return_window_days,
    condition_required := policy.condition,
    refund_type := policy.refund_type,
    restocking_fee := "No restocking fee for defective items" }

/-- Result of `lookup_order`: `{success: True, order: ...}` or
`{success: False, message: ...}` (customer.py lines 104-111). -/
inductive LookupResult where
  | found (order : OrderRecord)
  | notFound (message : String)
deriving Repr, DecidableEq

/-- `lookup_order` (customer.py lines 92-111). -/
def lookup_order (daysAgoDate : Nat → String) (order_id : String) : LookupResult :=
  match dictGet (MOCK_PURCHASES daysAgoDate) (pyUpper order_id) with
  | some order => .found order
  | none => .notFound ("Order " ++ order_id ++ " not found. Please check the order ID.")

/-- The success dict of `calculate_refund` (customer.py lines 142-149). -/
structure RefundOk where
  original_price : ℚ
  restocking_fee : ℚ
  refund_amount : ℚ
  refund_method : String
  processing_time : String
deriving Repr, DecidableEq

/-- Result of `calculate_refund`: success dict or
`{success: False, message: ...}` (customer.py lines 128-149). -/
inductive RefundResult where
  | failure (message : String)
  | ok (r : RefundOk)
deriving Repr, DecidableEq

/-- `calculate_refund` (customer.py lines 115-149).  Note the source sets
`restocking_fee = 100` and then zeroes it when `return_reason.lower()` is
NOT in the waiver list — the `if not in` condition is transcribed as-is. -/
def calculate_refund (daysAgoDate : Nat → String) (order_id : String)
    (return_reason : String := "general") : RefundResult :=
  match dictGet (MOCK_PURCHASES daysAgoDate) (pyUpper order_id) with
  | none => .failure "Order not found"
  | some order =>
    let price := order.price
    let restocking_fee : ℚ :=
      if !(["defective", "wrong_item", "damaged"].contains (pyLower return_reason)) then 0
      else 100
    let refund_amount := price - restocking_fee
    .ok { original_price := price,
          restocking_fee := restocking_fee,
          refund_amount := refund_amount,
          refund_method := "Original payment method",
          processing_time := "5-7 business days" }

/-- Keyword arguments of a tool call: a mapping of parameter name to
(string-valued) argument, as the three tools only take string parameters. -/
abbrev ToolArgs := List (String × String)

/-- A registered tool as seen by `execute_tools`: keyword binding plus the
tool body; `Except.error` models a raised exception (`TypeError` on bad
keywords, or any fault in the body), which `execute_tools` catches. -/
def Tool := ToolArgs → Except String String

/-- Keyword binding for one parameter that has no default:
missing → `TypeError`, unexpected keyword → `TypeError`. -/
def bindArg (allowed : List String) (args : ToolArgs) (param : String) :
    Except String String :=
  if args.all (fun p => allowed.contains p.1) then
    match dictGet args param with
    | some v => .ok v
    | none => .error ("TypeError: missing required argument: " ++ param)
  else .error "TypeError: unexpected keyword argument"

/-- Keyword binding for one parameter with a default value. -/
def bindArgD (allowed : List String) (args : ToolArgs) (param dflt : String) :
    Except String String :=
  if args.all (fun p => allowed.contains p.1) then
    .ok ((dictGet args param).getD dflt)
  else .error "TypeError: unexpected keyword argument"

/-- `lookup_order` wrapped as a dispatchable tool: bind `order_id`, run
the body, stringify the result (`str(result)` modelled by `reprStr`). -/
def lookup_order_tool (daysAgoDate : Nat → String) : Tool := fun args => do
  let oid ← bindArg ["order_id"] args "order_id"
  return reprStr (lookup_order daysAgoDate oid)

/-- `product_return_policy` wrapped as a dispatchable tool
(`product_category` defaults to `"electronics"`). -/
def product_return_policy_tool : Tool := fun args => do
  let cat ← bindArgD ["product_category"] args "product_category" "electronics"
  return reprStr (product_return_policy cat)

/-- `calculate_refund` wrapped as a dispatchable tool
(`return_reason` defaults to `"general"`). -/
def calculate_refund_tool (daysAgoDate : Nat → String) : Tool := fun args => do
  let oid ← bindArg ["order_id", "return_reason"] args "order_id"
  let reason ← bindArgD ["order_id", "return_reason"] args "return_reason" "general"
  return reprStr (calculate_refund daysAgoDate oid reason)

/-- The `TOOLS` registry (customer.py lines 151-155). -/
def TOOLS (daysAgoDate : Nat → String) : List (String × Tool) :=
  [ ("lookup_order", lookup_order_tool daysAgoDate),
    ("product_return_policy", product_return_policy_tool),
    ("calculate_refund", calculate_refund_tool daysAgoDate) ]

/-- One entry of `last_message.tool_calls` (a LangChain tool call dict). -/
structure ToolCall where
  name : String
  args : ToolArgs
  id : String
deriving Repr, DecidableEq

/-- A `ToolMessage` (the result entry appended per tool call). -/
structure ToolMessage where
  content : String
  tool_call_id : String
  name : String
deriving Repr, DecidableEq

/-- The body of the `for tool_call in tool_calls` loop of `execute_tools`
(customer.py lines 225-252): `TOOLS[tool_name]` raises `KeyError` OUTSIDE
the `try`, so an unregistered name makes the whole call raise; an error
from the tool itself is caught and becomes an error-text `ToolMessage`. -/
def execute_tools (registry : List (String × Tool)) :
    List ToolCall → Except String (List ToolMessage)
  | [] => .ok []
  | tc :: rest =>
    match dictGet registry tc.name with
    | none => .error ("KeyError: " ++ tc.name)
    | some tool_func =>
      let msg : ToolMessage :=
        match tool_func tc.args with
        | .ok result =>
          { content := result, tool_call_id := tc.id, name := tc.name }
        | .error e =>
          { content := "Error executing " ++ tc.name ++ ": " ++ e,
            tool_call_id := tc.id, name := tc.name }
      (execute_tools registry rest).map (fun msgs => msg :: msgs)

/-- The `ToolMessage` produced for a single registered call: matches the
loop body of `execute_tools` when `dictGet registry tc.name` is `some`. -/
def callMessage (registry : List (String × Tool)) (tc : ToolCall) : ToolMessage :=
  match dictGet registry tc.name with
  | some tool_func =>
    match tool_func tc.args with
    | .ok result => { content := result, tool_call_id := tc.id, name := tc.name }
    | .error e =>
      { content := "Error executing " ++ tc.name ++ ": " ++ e,
        tool_call_id := tc.id, name := tc.name }
  | none => { content := "", tool_call_id := tc.id, name := tc.name }

/-- A conversation turn (LangChain message).  Only `AIMessage` has a
`tool_calls` attribute, mirrored by `Message.tool_calls` below. -/
inductive Message where
  | human (content : String)
  | ai (content : String) (tool_calls : List ToolCall)
  | toolMsg (m : ToolMessage)
deriving Repr, DecidableEq

/-- `getattr(msg, "tool_calls", None)`: `some` exactly when the message has
the attribute (i.e., is an `AIMessage`). -/
def Message.tool_calls : Message → Option (List ToolCall)
  | .ai _ tcs => some tcs
  | _ => none

/-- `add_messages` (customer.py lines 159-161), the state reducer:
`return left + right`. -/
def add_messages (left right : List Message) : List Message :=
  left ++ right

/-- `should_continue` (customer.py lines 170-178).  `messages[-1]` is
modelled by `getLast?`; the list is nonempty at every call site (the loop
starts from the user's message and only appends), so the `none` branch is
unreachable there.  Nonempty `tool_calls` is Python truthiness. -/
def should_continue (messages : List Message) : String :=
  match messages.getLast? with
  | some last_message =>
    match last_message.tool_calls with
    | some tcs => if tcs ≠ [] then "tools" else "end"
    | none => "end"
  | none => "end"

/-- A node of the compiled graph of `create_agent_graph` (customer.py lines
259-275): the `agent` node, the `tools` node, the terminal `END`, plus
`crashed`, modelling an uncaught Python exception aborting the run. -/
inductive Node where
  | agent
  | tools
  | done
  | crashed
deriving Repr, DecidableEq

/-- A configuration of the running graph: current node, the accumulated
`AgentState` message list, and how many model invocations have happened
(the index used to query the model oracle). -/
structure LoopState where
  node : Node
  messages : List Message
  calls : Nat
deriving Repr, DecidableEq

/-- `last_message.tool_calls` as read by `execute_tools` (customer.py lines
218-221); at its call sites the last message is the model's tool-request. -/
def lastToolCalls (messages : List Message) : List ToolCall :=
  match messages.getLast? with
  | some m => m.tool_calls.getD []
  | none => []

/-- One step of the compiled graph of `create_agent_graph`
(customer.py lines 259-275), with the remote model abstracted as an
oracle giving the content and tool calls of the k-th `AIMessage`:
 - at `agent`, `call_model` appends the model response and the
   conditional edge routes on `should_continue` (`"tools"` → tools node,
   `"end"` → END);
 - at `tools`, `execute_tools` appends one `ToolMessage` per call and the
   unconditional edge returns to `agent`; an uncaught exception
   (`KeyError` from `TOOLS[tool_name]`) aborts the run (`crashed`);
 - `END` (and `crashed`) have no outgoing transitions. -/
def step (daysAgoDate : Nat → String) (oracle : Nat → String × List ToolCall)
    (s : LoopState) : LoopState :=
  match s.node with
  | .agent =>
    let response : Message := .ai (oracle s.calls).1 (oracle s.calls).2
    let messages1 := add_messages s.messages [response]
    if should_continue messages1 = "tools" then
      { node := .tools, messages := messages1, calls := s.calls + 1 }
    else
      { node := .done, messages := messages1, calls := s.calls + 1 }
  | .tools =>
    match execute_tools (TOOLS daysAgoDate) (lastToolCalls s.messages) with
    | .ok msgs =>
      { node := .agent,
        messages := add_messages s.messages (msgs.map Message.toolMsg),
        calls := s.calls }
    | .error _ => { node := .crashed, messages := s.messages, calls := s.calls }
  | .done => s
  | .crashed => s

/-- The initial state of `run_agent` (customer.py lines 287-289): only the
user's opening message, entry point `agent`. -/
def initial_state (query : String) : LoopState :=
  { node := .agent, messages := [.human query], calls := 0 }

/-! Helper lemmas shared by the claim theorems. -/

lemma execute_tools_ok_of_registered (registry : List (String × Tool)) :
    ∀ calls : List ToolCall,
      (∀ tc ∈ calls, (dictGet registry tc.name).isSome) →
      execute_tools registry calls = .ok (calls.map (callMessage registry)) := by
  intro calls
  induction calls with
  | nil => intro _; rfl
  | cons tc rest ih =>
    intro h
    obtain ⟨f, hf⟩ := Option.isSome_iff_exists.mp (h tc (List.mem_cons_self tc rest))
    have hrest := ih (fun x hx => h x (List.mem_cons_of_mem tc hx))
    cases hres : f tc.args with
    | ok r => simp [execute_tools, callMessage, hf, hres, hrest, Except.map]
    | error e => simp [execute_tools, callMessage, hf, hres, hrest, Except.map]

lemma execute_tools_error_of_unregistered (registry : List (String × Tool)) :
    ∀ (calls : List ToolCall) (tc : ToolCall), tc ∈ calls →
      dictGet registry tc.name = none →
      ∃ e, execute_tools registry calls = .error e := by
  intro calls
  induction calls with
  | nil => intro tc h; cases h
  | cons c rest ih =>
    intro tc hmem hnone
    rcases List.mem_cons.mp hmem with heq | hr
    · subst heq
      exact ⟨"KeyError: " ++ tc.name, by simp [execute_tools, hnone]⟩
    · cases hc : dictGet registry c.name with
      | none => exact ⟨"KeyError: " ++ c.name, by simp [execute_tools, hc]⟩
      | some f =>
        obtain ⟨e, he⟩ := ih tc hr hnone
        refine ⟨e, ?_⟩
        cases hres : f c.args <;> simp [execute_tools, hc, he, hres, Except.map]

lemma should_continue_concat (msgs : List Message) (c : String) (tcs : List ToolCall) :
    should_continue (msgs ++ [.ai c tcs]) = if tcs ≠ [] then "tools" else "end" := by
  simp [should_continue, List.getLast?_concat, Message.tool_calls]

lemma lastToolCalls_concat_ai (msgs : List Message) (c : String) (tcs : List ToolCall) :
    lastToolCalls (msgs ++ [.ai c tcs]) = tcs := by
  simp [lastToolCalls, List.getLast?_concat, Message.tool_calls]

lemma step_agent_node (daysAgoDate : Nat → String)
    (oracle : Nat → String × List ToolCall) (s : LoopState) (h : s.node = .agent) :
    (step daysAgoDate oracle s).node
        = (if (oracle s.calls).2 ≠ [] then Node.tools else Node.done) ∧
    (step daysAgoDate oracle s).messages
        = s.messages ++ [.ai (oracle s.calls).1 (oracle s.calls).2] ∧
    (step daysAgoDate oracle s).calls = s.calls + 1 := by
  obtain ⟨nd, msgs, cl⟩ := s
  simp only [LoopState.node] at h
  subst h
  by_cases he : (oracle cl).2 = [] <;>
    simp [step, add_messages, should_continue_concat, he]

lemma step_tools_node (daysAgoDate : Nat → String)
    (oracle : Nat → String × List ToolCall) (s : LoopState) (h : s.node = .tools)
    (hok : ∀ tc ∈ lastToolCalls s.messages, (dictGet (TOOLS daysAgoDate) tc.name).isSome) :
    (step daysAgoDate oracle s).node = .agent ∧
    (step daysAgoDate oracle s).calls = s.calls := by
  obtain ⟨nd, msgs, cl⟩ := s
  simp only [LoopState.node] at h
  subst h
  have he := execute_tools_ok_of_registered (TOOLS daysAgoDate) (lastToolCalls msgs) hok
  simp [step, he, add_messages]

lemma step_done_fixed (daysAgoDate : Nat → String)
    (oracle : Nat → String × List ToolCall) (s : LoopState) (h : s.node = .done) :
    step daysAgoDate oracle s = s := by
  obtain ⟨nd, msgs, cl⟩ := s
  simp only [LoopState.node] at h
  subst h
  rfl

lemma loop_reaches_done (daysAgoDate : Nat → String)
    (oracle : Nat → String × List ToolCall) (query : String) (k : Nat)
    (hplain : (oracle k).2 = [])
    (hreg : ∀ j, j < k → ∀ tc ∈ (oracle j).2,
       (dictGet (TOOLS daysAgoDate) tc.name).isSome) :
    ∃ n, ((step daysAgoDate oracle)^[n] (initial_state query)).node = .done := by
  have key : ∀ j, j ≤ k →
      (∃ n, ((step daysAgoDate oracle)^[n] (initial_state query)).node = .done) ∨
      (((step daysAgoDate oracle)^[2*j] (initial_state query)).node = .agent ∧
       ((step daysAgoDate oracle)^[2*j] (initial_state query)).calls = j) := by
    intro j
    induction j with
    | zero => intro _; right; exact ⟨rfl, rfl⟩
    | succ j ih =>
      intro hj
      rcases ih (Nat.le_of_succ_le hj) with hdone | ⟨ha, hc⟩
      · exact Or.inl hdone
      · have hjk : j < k := hj
        obtain ⟨hnode1, hmsg1, hcalls1⟩ :=
          step_agent_node daysAgoDate oracle
            ((step daysAgoDate oracle)^[2*j] (initial_state query)) ha
        by_cases hemp : (oracle ((step daysAgoDate oracle)^[2*j] (initial_state query)).calls).2 = []
        · left
          refine ⟨2*j+1, ?_⟩
          rw [Function.iterate_succ_apply', hnode1]
          simp [hemp]
        · have hnode1' :
              (step daysAgoDate oracle
                ((step daysAgoDate oracle)^[2*j] (initial_state query))).node = .tools := by
            rw [hnode1]; simp [hemp]
          have hreg' : ∀ tc ∈ lastToolCalls
              (step daysAgoDate oracle
                ((step daysAgoDate oracle)^[2*j] (initial_state query))).messages,
              (dictGet (TOOLS daysAgoDate) tc.name).isSome := by
            rw [hmsg1, lastToolCalls_concat_ai, hc]
            exact hreg j hjk
          obtain ⟨hnode2, hcalls2⟩ :=
            step_tools_node daysAgoDate oracle _ hnode1' hreg'
          have h2 : 2*(j+1) = (2*j+1)+1 := by ring
          right
          constructor
          · rw [h2, Function.iterate_succ_apply', Function.iterate_succ_apply']
            exact hnode2
          · rw [h2, Function.iterate_succ_apply', Function.iterate_succ_apply',
               hcalls2, hcalls1, hc]
  rcases key k le_rfl with hdone | ⟨ha, hc⟩
  · exact hdone
  · obtain ⟨hnode1, _, _⟩ :=
      step_agent_node daysAgoDate oracle
        ((step daysAgoDate oracle)^[2*k] (initial_state query)) ha
    refine ⟨2*k+1, ?_⟩
    rw [Function.iterate_succ_apply', hnode1, hc]
    simp [hplain]

/-! Claim theorems. -/

/-- C1: the claim states that a `return_reason` in {defective, wrong_item,
damaged} waives the restocking fee (refund = price) and every other reason
pays fee 100 (refund = price − 100).  The code does the exact opposite:
its waiver condition `if return_reason.lower() not in [...]` zeroes the fee
for the non-waiver reasons and keeps fee 100 for the waiver reasons,
contradicting the comment directly above it («no restocking fee for
defective items»).  Evaluating the embedded code at the failing inputs:
`ORD-001` with reason `defective` is charged fee 100 (refund 79.99 − 100,
which is negative and differs from the claimed 79.99), while reason
`general` gets fee 0. -/
theorem C1_refund_fee_inverted (daysAgoDate : Nat → String) :
    calculate_refund daysAgoDate "ORD-001" "defective" =
      .ok { original_price := 79.99, restocking_fee := 100,
            refund_amount := 79.99 - 100,
            refund_method := "Original payment method",
            processing_time := "5-7 business days" } ∧
    (79.99 : ℚ) - 100 ≠ 79.99 ∧
    calculate_refund daysAgoDate "ORD-001" "general" =
      .ok { original_price := 79.99, restocking_fee := 0,
            refund_amount := 79.99 - 0,
            refund_method := "Original payment method",
            processing_time := "5-7 business days" } ∧
    (79.99 : ℚ) - 0 ≠ 79.99 - 100 := by
  refine ⟨rfl, by norm_num, rfl, by norm_num⟩

/-- C4: for an `order_id` whose uppercased form is a key of the store,
`lookup_order` returns the found record exactly; for any other `order_id`
it returns a not-found message that contains the queried identifier. -/
theorem C4_lookup_order_contract (daysAgoDate : Nat → String) (order_id : String) :
    (∀ rec : OrderRecord,
       dictGet (MOCK_PURCHASES daysAgoDate) (pyUpper order_id) = some rec →
       lookup_order daysAgoDate order_id = .found rec) ∧
    (dictGet (MOCK_PURCHASES daysAgoDate) (pyUpper order_id) = none →
       ∃ pre post, lookup_order daysAgoDate order_id = .notFound (pre ++ order_id ++ post)) := by
  constructor
  · intro rec h
    unfold lookup_order
    rw [h]
  · intro h
    refine ⟨"Order ", " not found. Please check the order ID.", ?_⟩
    unfold lookup_order
    rw [h]

/-- C4 witness: `ord-001` (lower case) finds the ORD-001 record; `ORD-999`
yields a message containing `ORD-999`. -/
theorem C4_lookup_order_contract_witness :
    lookup_order (fun _ => "2025-10-02") "ord-001" =
      .found { product_name := "Wireless Bluetooth Headphones",
               purchase_date := "2025-10-02", order_id := "ORD-001",
               price := 79.99, customer_name := "John Smith" } ∧
    (∃ pre post,
       lookup_order (fun _ => "2025-10-02") "ORD-999" =
         .notFound (pre ++ "ORD-999" ++ post)) :=
  ⟨(C4_lookup_order_contract (fun _ => "2025-10-02") "ord-001").1 _ rfl,
   (C4_lookup_order_contract (fun _ => "2025-10-02") "ORD-999").2 rfl⟩

/-- C6: `product_return_policy` is total (it always yields a policy
record, there is no error path), and any category whose lowercase form is
neither `electronics` nor `accessories` gets the built-in default
policy's values. -/
theorem C6_policy_total_default (product_category : String) :
    (∃ pr : PolicyResult, product_return_policy product_category = pr) ∧
    (pyLower product_category ≠ "electronics" →
     pyLower product_category ≠ "accessories" →
     product_return_policy product_category =
       { return_window_days := 30,
         condition_required := "unused and in original condition",
         refund_type := "full refund",
         restocking_fee := "No restocking fee for defective items" }) := by
  refine ⟨⟨_, rfl⟩, ?_⟩
  intro h1 h2
  have e1 : ("electronics" == pyLower product_category) = false :=
    beq_eq_false_iff_ne.mpr (Ne.symm h1)
  have e2 : ("accessories" == pyLower product_category) = false :=
    beq_eq_false_iff_ne.mpr (Ne.symm h2)
  by_cases hd : pyLower product_category = "default"
  · have e3 : ("default" == pyLower product_category) = true :=
      beq_iff_eq.mpr hd.symm
    simp [product_return_policy, policies, dictGet, List.find?, e1, e2, e3,
          defaultPolicy]
  · have e3 : ("default" == pyLower product_category) = false :=
      beq_eq_false_iff_ne.mpr (Ne.symm hd)
    simp [product_return_policy, policies, dictGet, List.find?, e1, e2, e3,
          defaultPolicy]

/-- C6 witness: the unrecognized category `shoes` gets the default policy. -/
theorem C6_policy_total_default_witness :
    product_return_policy "shoes" =
      { return_window_days := 30,
        condition_required := "unused and in original condition",
        refund_type := "full refund",
        restocking_fee := "No restocking fee for defective items" } :=
  (C6_policy_total_default "shoes").2 (by decide) (by decide)

/-- C7: for an `order_id` whose uppercased form is not a key of the store,
`calculate_refund` returns the structured failure
`{success: false, message: "Order not found"}` for every return reason
(no exception: the embedded function is total). -/
theorem C7_refund_missing_order (daysAgoDate : Nat → String)
    (order_id return_reason : String)
    (h : dictGet (MOCK_PURCHASES daysAgoDate) (pyUpper order_id) = none) :
    calculate_refund daysAgoDate order_id return_reason = .failure "Order not found" := by
  unfold calculate_refund
  rw [h]

/-- C7 witness: `ORD-999` is not in the store and yields the failure. -/
theorem C7_refund_missing_order_witness :
    calculate_refund (fun _ => "2025-10-02") "ORD-999" "general" =
      .failure "Order not found" :=
  C7_refund_missing_order (fun _ => "2025-10-02") "ORD-999" "general" rfl

/-- C9: there is a seeded order and a return reason for which
`calculate_refund` reports success with a strictly negative
`refund_amount`: `ORD-001` (price 79.99) with reason `defective` is
charged the flat fee 100, and no non-negativity check exists. -/
theorem C9_negative_refund (daysAgoDate : Nat → String) :
    ∃ (order_id return_reason : String) (r : RefundOk),
      (dictGet (MOCK_PURCHASES daysAgoDate) order_id).isSome ∧
      calculate_refund daysAgoDate order_id return_reason = .ok r ∧
      r.refund_amount < 0 := by
  refine ⟨"ORD-001", "defective",
    { original_price := 79.99, restocking_fee := 100,
      refund_amount := 79.99 - 100,
      refund_method := "Original payment method",
      processing_time := "5-7 business days" }, rfl, rfl, ?_⟩
  show (79.99 : ℚ) - 100 < 0
  norm_num

/-- C10: the `restocking_fee` field returned by `product_return_policy` is
the same constant string for every input category — it is not a numeric
fee and does not vary with the selected policy. -/
theorem C10_restocking_fee_constant (product_category : String) :
    (product_return_policy product_category).restocking_fee =
      "No restocking fee for defective items" := rfl

/-- C2 counterexample: the claim says a batch with an unregistered
`tool_name` yields a failure result message for that call and the
remaining calls still run.  In the code `TOOLS[tool_name]` is evaluated
OUTSIDE the `try`, so the `KeyError` propagates: on the concrete batch
[`refund_status` (unregistered), `lookup_order`] the executor raises and
produces no result messages at all — the second call never runs. -/
theorem C2_counterexample_unregistered :
    execute_tools (TOOLS (fun _ => "2025-10-02"))
        [ { name := "refund_status", args := [], id := "call_1" },
          { name := "lookup_order", args := [("order_id", "ORD-001")], id := "call_2" } ]
      = .error "KeyError: refund_status" := rfl

/-- C2 (amended): a tool-call batch containing a call whose `tool_name` is
unregistered makes `execute_tools` raise (an uncaught `KeyError` from the
registry lookup, which happens before the `try`), so no result messages
are returned for any call of the batch; only errors raised by a
registered tool's invocation are captured as result messages. -/
theorem C2_unregistered_tool_raises (registry : List (String × Tool))
    (calls : List ToolCall) (tc : ToolCall) (hmem : tc ∈ calls)
    (hnone : dictGet registry tc.name = none) :
    ∃ e, execute_tools registry calls = .error e :=
  execute_tools_error_of_unregistered registry calls tc hmem hnone

/-- C2 witness: a singleton batch naming the unregistered tool
`refund_status` makes the executor raise. -/
theorem C2_unregistered_tool_raises_witness :
    ∃ e, execute_tools (TOOLS (fun _ => "2025-10-02"))
        [ { name := "refund_status", args := [], id := "call_1" } ] = .error e :=
  C2_unregistered_tool_raises (TOOLS (fun _ => "2025-10-02"))
    [ { name := "refund_status", args := [], id := "call_1" } ]
    { name := "refund_status", args := [], id := "call_1" }
    (List.mem_singleton_self _) rfl

/-- C3: on a batch whose tool names are all registered, `execute_tools`
returns exactly one `ToolMessage` per call, in call order (the result list
is the map of `callMessage` over the calls), each carrying its call's
identifier and tool name; a call whose tool invocation raises `e` yields
the result content `Error executing <tool_name>: <e>` and, being just one
element of the map, never prevents the sibling calls' results. -/
theorem C3_batch_contract (registry : List (String × Tool)) (calls : List ToolCall)
    (h : ∀ tc ∈ calls, (dictGet registry tc.name).isSome) :
    execute_tools registry calls = .ok (calls.map (callMessage registry)) ∧
    (calls.map (callMessage registry)).length = calls.length ∧
    (∀ tc : ToolCall, (callMessage registry tc).tool_call_id = tc.id ∧
       (callMessage registry tc).name = tc.name) ∧
    (∀ (tc : ToolCall) (f : Tool) (e : String),
       dictGet registry tc.name = some f → f tc.args = .error e →
       (callMessage registry tc).content = "Error executing " ++ tc.name ++ ": " ++ e) := by
  refine ⟨execute_tools_ok_of_registered registry calls h, List.length_map _ _, ?_, ?_⟩
  · intro tc
    cases hf : dictGet registry tc.name with
    | none => simp [callMessage, hf]
    | some f => cases hres : f tc.args <;> simp [callMessage, hf, hres]
  · intro tc f e hf he
    simp [callMessage, hf, he]

/-- C3 witness: a two-call batch over the real registry — the second call
raises a `TypeError` inside the tool invocation (missing `order_id`) and
is captured, the batch still yields both results. -/
theorem C3_batch_contract_witness :
    execute_tools (TOOLS (fun _ => "2025-10-02"))
        [ { name := "lookup_order", args := [("order_id", "ORD-003")], id := "call_1" },
          { name := "calculate_refund", args := [], id := "call_2" } ]
      = .ok
        (List.map (callMessage (TOOLS (fun _ => "2025-10-02")))
          [ { name := "lookup_order", args := [("order_id", "ORD-003")], id := "call_1" },
            { name := "calculate_refund", args := [], id := "call_2" } ]) :=
  (C3_batch_contract (TOOLS (fun _ => "2025-10-02"))
    [ { name := "lookup_order", args := [("order_id", "ORD-003")], id := "call_1" },
      { name := "calculate_refund", args := [], id := "call_2" } ] (by decide)).1

/-- C5: the loop controller started at the `agent` node — (i) after a
model invocation it moves to the tools node exactly when the model message
carries a non-empty `tool_calls` list and to the terminal node exactly
otherwise; (ii) the tools node always transitions back to the model node
(given its tool names resolve, the only case in which the executor
returns at all); (iii) no transition leaves the terminal node; (iv) hence from
the initial state the loop reaches the terminal node in finitely many
steps whenever some model invocation returns a plain text answer and the
tool names requested before it are registered. -/
theorem C5_loop_controller (daysAgoDate : Nat → String)
    (oracle : Nat → String × List ToolCall) :
    (∀ s : LoopState, s.node = .agent →
       (((step daysAgoDate oracle s).node = .tools ↔ (oracle s.calls).2 ≠ []) ∧
        ((step daysAgoDate oracle s).node = .done ↔ (oracle s.calls).2 = []))) ∧
    (∀ s : LoopState, s.node = .tools →
       (∀ tc ∈ lastToolCalls s.messages, (dictGet (TOOLS daysAgoDate) tc.name).isSome) →
       (step daysAgoDate oracle s).node = .agent) ∧
    (∀ s : LoopState, s.node = .done → step daysAgoDate oracle s = s) ∧
    (∀ (query : String) (k : Nat),
       (oracle k).2 = [] →
       (∀ j, j < k → ∀ tc ∈ (oracle j).2, (dictGet (TOOLS daysAgoDate) tc.name).isSome) →
       ∃ n, ((step daysAgoDate oracle)^[n] (initial_state query)).node = .done) := by
  refine ⟨?_, ?_, ?_, ?_⟩
  · intro s hs
    obtain ⟨hnode, _, _⟩ := step_agent_node daysAgoDate oracle s hs
    by_cases he : (oracle s.calls).2 = [] <;> simp [hnode, he]
  · intro s hs hok
    exact (step_tools_node daysAgoDate oracle s hs hok).1
  · exact step_done_fixed daysAgoDate oracle
  · exact loop_reaches_done daysAgoDate oracle

/-- C5 witness: with a model that first requests `lookup_order` on ORD-003
and then answers in plain text (k = 1), the loop reaches the terminal
node. -/
theorem C5_loop_controller_witness :
    ∃ n, ((step (fun _ => "2025-10-02")
            (fun j => if j = 0
              then ("", [{ name := "lookup_order",
                           args := [("order_id", "ORD-003")], id := "call_1" }])
              else ("Your USB-C cable is within the return window.", [])))^[n]
          (initial_state "Can I return ORD-003?")).node = .done :=
  (C5_loop_controller (fun _ => "2025-10-02")
      (fun j => if j = 0
        then ("", [{ name := "lookup_order",
                     args := [("order_id", "ORD-003")], id := "call_1" }])
        else ("Your USB-C cable is within the return window.", []))).2.2.2
    "Can I return ORD-003?" 1 rfl
    (fun j hj => by
      have hj0 : j = 0 := Nat.lt_one_iff.mp hj
      subst hj0
      decide)

/-- C8: the agent state is append-only — the reducer `add_messages`
returns `left` followed by `right`, and every node of the loop (model
node, tools node, terminal) only ever appends to the message sequence,
preserving all existing turns and their order. -/
theorem C8_state_append_only :
    (∀ left right : List Message, add_messages left right = left ++ right) ∧
    (∀ (daysAgoDate : Nat → String) (oracle : Nat → String × List ToolCall)
       (s : LoopState),
       ∃ new, (step daysAgoDate oracle s).messages = s.messages ++ new) := by
  refine ⟨fun _ _ => rfl, ?_⟩
  intro dd oracle s
  obtain ⟨nd, msgs, cl⟩ := s
  cases nd with
  | agent =>
    refine ⟨[.ai (oracle cl).1 (oracle cl).2], ?_⟩
    simp only [step, add_messages]
    split <;> rfl
  | tools =>
    cases he : execute_tools (TOOLS dd) (lastToolCalls msgs) with
    | ok out => exact ⟨out.map Message.toolMsg, by simp [step, he, add_messages]⟩
    | error e => exact ⟨[], by simp [step, he]⟩
  | done => exact ⟨[], by simp [step]⟩
  | crashed => exact ⟨[], by simp [step]⟩

end CustomerSupport
